import Mathlib

/-!
Verification development for the A1 smart-contract exploit validation system
(`a1_system` Python package).  Each Python module relevant to the properties
below is shallowly embedded: dictionaries become association lists or
functions, Python `float` becomes `ℚ`, Python `int` becomes `ℤ`/`Nat`,
`Optional[T]` becomes `Option T`, and fallible paths return `Option`/`Except`.
Python truthiness (`if x:`) is modelled explicitly (e.g. `0`, `""`, `None`
are falsy).  External collaborators (HTTP clients, keccak digests, the
filesystem, subprocesses) are parameters of the embedded functions.
-/

namespace A1

/-! ## Basic string machinery

Core `String` functions such as `String.toLower` do not reduce in the
kernel, so the embedding works on `List Char` with its own executable
definitions and converts at the boundaries. -/

/-- Lower-case a string character by character (Python `str.lower` on the
ASCII strings handled here). -/
def sLower (s : String) : String := String.mk (s.toList.map Char.toLower)

/-- Upper-case a string character by character (Python `str.upper`). -/
def sUpper (s : String) : String := String.mk (s.toList.map Char.toUpper)

/-- Python dict lookup on an insertion-ordered association list. -/
def dictGet {α : Type} (l : List (String × α)) (k : String) : Option α :=
  match l with
  | [] => none
  | (k', v) :: rest => if k' = k then some v else dictGet rest k

/-! ## Token registry — `a1_system/pricing/tokens.py` -/

/-- `TokenInfo` dataclass from `pricing/tokens.py`. -/
structure TokenInfo where
  address : String
  symbol : String
  decimals : Nat
  name : String
  is_stablecoin : Bool := false
  is_wrapped_native : Bool := false
  coingecko_id : Option String := none
  chainlink_feed : Option String := none
deriving DecidableEq, Repr

/-- `TokenRegistry.TOKENS`, chain 1 (Ethereum mainnet), in insertion order. -/
def tokensEth : List (String × TokenInfo) :=
  [ ("ETH", { address := "0x0000000000000000000000000000000000000000", symbol := "ETH",
              decimals := 18, name := "Ethereum",
              coingecko_id := some "ethereum",
              chainlink_feed := some "0x5f4eC3Df9cbd43714FE2740f5E3616155c5b8419" }),
    ("WETH", { address := "0xC02aaA39b223FE8D0A0e5C4F27eAD9083C756Cc2", symbol := "WETH",
               decimals := 18, name := "Wrapped Ethereum", is_wrapped_native := true,
               coingecko_id := some "ethereum",
               chainlink_feed := some "0x5f4eC3Df9cbd43714FE2740f5E3616155c5b8419" }),
    ("USDC", { address := "0xA0b86a33E6441d00C9dab2B1DC7Be85c39Ad", symbol := "USDC",
               decimals := 6, name := "USD Coin", is_stablecoin := true,
               coingecko_id := some "usd-coin",
               chainlink_feed := some "0x8fFfFfd4AfB6115b954Bd326cbe7B4BA576818f6" }),
    ("USDT", { address := "0xdAC17F958D2ee523a2206206994597C13D831ec7", symbol := "USDT",
               decimals := 6, name := "Tether USD", is_stablecoin := true,
               coingecko_id := some "tether",
               chainlink_feed := some "0x3E7d1eAB13ad0104d2750B8863b489D65364e32D" }),
    ("DAI", { address := "0x6B175474E89094C44Da98b954EedeAC495271d0F", symbol := "DAI",
              decimals := 18, name := "Dai Stablecoin", is_stablecoin := true,
              coingecko_id := some "dai",
              chainlink_feed := some "0xAed0c38402d20D9df45C7C74C061f3f8a1e9e8D1" }),
    ("WBTC", { address := "0x2260FAC5E5542a773Aa44fBCfeDf7C193bc2C599", symbol := "WBTC",
               decimals := 8, name := "Wrapped Bitcoin",
               coingecko_id := some "wrapped-bitcoin",
               chainlink_feed := some "0xF4030086522a5bEEa4988F8cA5B36dbC97BeE88c" }),
    ("UNI", { address := "0x1f9840a85d5aF5bf1D1762F925BDADdC4201F984", symbol := "UNI",
              decimals := 18, name := "Uniswap",
              coingecko_id := some "uniswap",
              chainlink_feed := some "0x553303d460EE0afB37EdFf9bE42922D8FF63220e" }),
    ("COMP", { address := "0xc00e94Cb662C3520282E6f5717214004A7f26888", symbol := "COMP",
               decimals := 18, name := "Compound",
               coingecko_id := some "compound-governance-token",
               chainlink_feed := some "0xdbd020CAeF83eFd542f4De03e3cF0C28A4428bd5" }),
    ("stETH", { address := "0xae7ab96520DE3A18E5e111B5EaAb095312D7fE84", symbol := "stETH",
                decimals := 18, name := "Lido Staked ETH",
                coingecko_id := some "staked-ether",
                chainlink_feed := some "0xCfE54B5cD566aB89272946F602D76Ea879CAb4a8" }),
    ("UERII", { address := "0x418C24191aE947A78C99fDc0e45a1f96Afb254BE", symbol := "UERII",
                decimals := 6, name := "UERII Token",
                coingecko_id := some "uerii" }) ]

/-- `TokenRegistry.TOKENS`, chain 56 (BSC mainnet), in insertion order. -/
def tokensBsc : List (String × TokenInfo) :=
  [ ("BNB", { address := "0x0000000000000000000000000000000000000000", symbol := "BNB",
              decimals := 18, name := "Binance Coin",
              coingecko_id := some "binancecoin",
              chainlink_feed := some "0x0567F2323251f0Aab15c8dFb1967E4e8A7D42aeE" }),
    ("WBNB", { address := "0xbb4CdB9CBd36B01bD1cBaEBF2De08d9173bc095c", symbol := "WBNB",
               decimals := 18, name := "Wrapped BNB", is_wrapped_native := true,
               coingecko_id := some "binancecoin",
               chainlink_feed := some "0x0567F2323251f0Aab15c8dFb1967E4e8A7D42aeE" }),
    ("USDT", { address := "0x55d398326f99059fF775485246999027B3197955", symbol := "USDT",
               decimals := 18, name := "Tether USD", is_stablecoin := true,
               coingecko_id := some "tether",
               chainlink_feed := some "0xB97Ad0E74fa7d920791E90258A6E2085088b4320" }),
    ("BUSD", { address := "0xe9e7CEA3DedcA5984780Bafc599bD69ADd087D56", symbol := "BUSD",
               decimals := 18, name := "Binance USD", is_stablecoin := true,
               coingecko_id := some "binance-usd",
               chainlink_feed := some "0xcBb98864Ef56E9042e7d2efef76141f15731B82f" }),
    ("CAKE", { address := "0x0E09FaBB73Bd3Ade0a17ECC321fD13a19e81cE82", symbol := "CAKE",
               decimals := 18, name := "PancakeSwap Token",
               coingecko_id := some "pancakeswap-token",
               chainlink_feed := some "0xB6064eD41d4f67e353768aA239cA86f4F73665a1" }) ]

/-- `TokenRegistry.TOKENS.get(chain_id, {})`. -/
def registryTokens (chain_id : ℤ) : List (String × TokenInfo) :=
  if chain_id = 1 then tokensEth else if chain_id = 56 then tokensBsc else []

/-- `TokenRegistry.get_token_info`: lookup by upper-cased symbol. -/
def get_token_info (chain_id : ℤ) (symbol : String) : Option TokenInfo :=
  dictGet (registryTokens chain_id) (sUpper symbol)

/-- `TokenRegistry.get_token_by_address`: first token whose lower-cased
address equals the lower-cased query, in insertion order. -/
def get_token_by_address (chain_id : ℤ) (address : String) : Option TokenInfo :=
  ((registryTokens chain_id).map Prod.snd).find?
    (fun info => sLower info.address = sLower address)

/-- `TokenRegistry.get_base_currency`. -/
def get_base_currency (chain_id : ℤ) : String :=
  if chain_id = 1 then "ETH" else if chain_id = 56 then "BNB" else "ETH"

/-- `TokenRegistry.is_native_token`. -/
def is_native_token (address : String) : Bool :=
  sLower address = "0x0000000000000000000000000000000000000000" ∨
  sLower address = "0xeeeeeeeeeeeeeeeeeeeeeeeeeeeeeeeeeeeeeeee"

/-- `TokenRegistry.get_native_token_info`. -/
def get_native_token_info (chain_id : ℤ) : Option TokenInfo :=
  get_token_info chain_id (get_base_currency chain_id)

/-! ## Balance invariant validator — `a1_system/pricing/balance_validator.py` -/

/-- `BalanceInvariantViolation` dataclass. -/
structure BalanceInvariantViolation where
  token_symbol : String
  token_address : String
  initial_balance : ℚ
  final_balance : ℚ
  violation_amount : ℚ
  chain_id : ℤ
  violation_type : String
deriving DecidableEq, Repr

/-- A balance-change dictionary as consumed by the validator.  The Python
code reads the keys `token`, `initial` and `final` with `.get` defaults
`"UNKNOWN"`, `0.0`, `0.0`; every call site constructs dicts that carry
all three keys, which this structure models directly. -/
structure BalanceChangeDict where
  token : String
  initial : ℚ
  final : ℚ
deriving DecidableEq, Repr

/-- The `token_address` computed for a violation record:
`TokenRegistry.get_token_info(chain_id, token_symbol)`'s address, or `""`. -/
def violationTokenAddress (chain_id : ℤ) (token_symbol : String) : String :=
  match get_token_info chain_id token_symbol with
  | some info => info.address
  | none => ""

/-- The violations contributed by a single balance change in
`BalanceInvariantValidator.validate_balance_invariant`: a `depletion`
record when `final < initial`, then a `negative_balance` record when
`final < 0`, in that order. -/
def invariantViolationsFor (chain_id : ℤ) (change : BalanceChangeDict) :
    List BalanceInvariantViolation :=
  (if change.final < change.initial then
    [{ token_symbol := change.token
       token_address := violationTokenAddress chain_id change.token
       initial_balance := change.initial
       final_balance := change.final
       violation_amount := change.initial - change.final
       chain_id := chain_id
       violation_type := "depletion" }]
   else []) ++
  (if change.final < 0 then
    [{ token_symbol := change.token
       token_address := violationTokenAddress chain_id change.token
       initial_balance := change.initial
       final_balance := change.final
       violation_amount := |change.final|
       chain_id := chain_id
       violation_type := "negative_balance" }]
   else [])

/-- `BalanceInvariantValidator.validate_balance_invariant`: returns
`(is_valid, violations)` where `is_valid` iff no violations accumulated. -/
def validate_balance_invariant (balance_changes : List BalanceChangeDict)
    (chain_id : ℤ) : Bool × List BalanceInvariantViolation :=
  let violations := balance_changes.flatMap (invariantViolationsFor chain_id)
  (violations.isEmpty, violations)

/-- `BalanceInvariantValidator.PAPER_INITIAL_BALANCES` (per-chain table). -/
def PAPER_INITIAL_BALANCES (chain_id : ℤ) : List (String × ℚ) :=
  if chain_id = 1 then
    [("ETH", 100000), ("WETH", 100000), ("USDC", 10000000),
     ("USDT", 10000000), ("DAI", 10000000)]
  else if chain_id = 56 then
    [("BNB", 100000), ("WBNB", 100000), ("USDT", 10000000), ("BUSD", 10000000)]
  else []

/-- The violations contributed by a single balance change in
`BalanceInvariantValidator.validate_paper_compliance`: when the token is
in the paper table and `final < expected_initial`, an
`insufficient_funds` record (the deviation warning on `initial` is a log
line with no effect on the result). -/
def paperViolationsFor (chain_id : ℤ) (change : BalanceChangeDict) :
    List BalanceInvariantViolation :=
  match dictGet (PAPER_INITIAL_BALANCES chain_id) change.token with
  | none => []
  | some expected_initial =>
    if change.final < expected_initial then
      [{ token_symbol := change.token
         token_address := violationTokenAddress chain_id change.token
         initial_balance := expected_initial
         final_balance := change.final
         violation_amount := expected_initial - change.final
         chain_id := chain_id
         violation_type := "insufficient_funds" }]
    else []

/-- `BalanceInvariantValidator.validate_paper_compliance`. -/
def validate_paper_compliance (balance_changes : List BalanceChangeDict)
    (chain_id : ℤ) : Bool × List BalanceInvariantViolation :=
  let violations := balance_changes.flatMap (paperViolationsFor chain_id)
  (violations.isEmpty, violations)


/-! ## Price cache — `a1_system/pricing/cache.py`

The cache state (in-memory dict plus per-chain disk files) is modelled as
functions from keys to optional entries; `time.time()` is an explicit
`now` argument. -/

/-- `PriceCacheEntry` dataclass. -/
structure PriceCacheEntry where
  price_usd : ℚ
  timestamp : ℤ
  block_number : Option Nat
  chain_id : ℤ
  token_symbol : String
  source : String
  confidence : ℚ
  cached_at : ℚ
deriving DecidableEq, Repr

/-- Mutable state of a `PriceCache`: the in-memory dict keyed by cache key,
and the per-chain disk files keyed by chain id then cache key. -/
structure PriceCacheState where
  memory : String → Option PriceCacheEntry
  disk : ℤ → String → Option PriceCacheEntry

/-- `PriceCache._get_cache_key`.  Python's `if block_number:` is truthiness:
`None` and `0` both select the `"latest"` key. -/
def cacheKey (chain_id : ℤ) (token_symbol : String) (block_number : Option Nat) : String :=
  match block_number with
  | some b =>
    if b ≠ 0 then toString chain_id ++ "_" ++ token_symbol ++ "_" ++ toString b
    else toString chain_id ++ "_" ++ token_symbol ++ "_latest"
  | none => toString chain_id ++ "_" ++ token_symbol ++ "_latest"

/-- The disk-cache half of `PriceCache.get_price`: a disk hit that is still
fresh is promoted into the memory cache; an expired disk entry is removed
from the disk file. -/
def getPriceDisk (st : PriceCacheState) (max_age : ℚ) (now : ℚ) (chain_id : ℤ)
    (key : String) : Option PriceCacheEntry × PriceCacheState :=
  match st.disk chain_id key with
  | some e =>
    if now - e.cached_at < max_age then
      (some e, { st with memory := fun k => if k = key then some e else st.memory k })
    else
      (none, { st with
        disk := fun c k => if c = chain_id ∧ k = key then none else st.disk c k })
  | none => (none, st)

/-- `PriceCache.get_price`: memory first (expired entries are deleted and
the disk is consulted), then disk. -/
def PriceCache.get_price (st : PriceCacheState) (max_age : ℚ) (now : ℚ)
    (chain_id : ℤ) (token_symbol : String) (block_number : Option Nat) :
    Option PriceCacheEntry × PriceCacheState :=
  let key := cacheKey chain_id token_symbol block_number
  match st.memory key with
  | some e =>
    if now - e.cached_at < max_age then (some e, st)
    else
      getPriceDisk { st with memory := fun k => if k = key then none else st.memory k }
        max_age now chain_id key
  | none => getPriceDisk st max_age now chain_id key

/-- `PriceCache.set_price`: builds the entry (`timestamp or int(time.time())`
is truthiness again: a `0` or absent timestamp becomes `now`) and writes it
under the cache key into both the memory dict and the chain's disk file. -/
def PriceCache.set_price (st : PriceCacheState) (chain_id : ℤ) (token_symbol : String)
    (price_usd : ℚ) (source : String) (confidence : ℚ) (block_number : Option Nat)
    (timestamp : Option ℤ) (nowInt : ℤ) (now : ℚ) :
    PriceCacheEntry × PriceCacheState :=
  let key := cacheKey chain_id token_symbol block_number
  let entry : PriceCacheEntry :=
    { price_usd := price_usd
      timestamp := match timestamp with
        | some t => if t ≠ 0 then t else nowInt
        | none => nowInt
      block_number := block_number
      chain_id := chain_id
      token_symbol := token_symbol
      source := source
      confidence := confidence
      cached_at := now }
  (entry,
   { memory := fun k => if k = key then some entry else st.memory k
     disk := fun c k => if c = chain_id ∧ k = key then some entry else st.disk c k })


/-! ## Pricing oracle — `a1_system/pricing/oracle.py`

The three API clients (Chainlink, DEX, CoinGecko) are opaque external
collaborators; each is modelled as a function returning
`Option (price, confidence)`, with a raised exception folded into `none`
exactly as the `try/except` blocks in `oracle.py` do.  The cache read at
the top of `get_token_price` is a function in the environment; the cache
*writes* performed by `_get_fallback_price` do not affect any returned
value and are not part of the state modelled here.  `get_token_price`
itself can raise an `AttributeError` (native token on a chain without a
registry entry), so it returns `Except Unit`. -/

/-- `PriceResult` dataclass. -/
structure PriceResult where
  price_usd : ℚ
  confidence : ℚ
  source : String
  timestamp : ℤ
  block_number : Option Nat := none
  token_symbol : String := ""
  chain_id : ℤ := 1
deriving DecidableEq, Repr

/-- External collaborators of `PricingOracle`. -/
structure OracleEnv where
  cache_get : ℤ → String → Option Nat → Option PriceCacheEntry
  chainlink_hist : String → ℤ → Nat → String → Option (ℚ × ℚ)
  chainlink_latest : String → ℤ → String → Option (ℚ × ℚ)
  dex_quote : String → ℤ → String → Nat → Option (ℚ × ℚ)
  coingecko_at_block : String → ℤ → Nat → String → Option (ℚ × ℚ)
  coingecko_current : String → ℤ → String → Option (ℚ × ℚ)
  now : ℤ

/-- Python truthiness of an optional string (`None` and `""` are falsy). -/
def optStrTruthy : Option String → Bool
  | some s => s.toList ≠ []
  | none => false

/-- Python truthiness of an optional block number (`None` and `0` falsy). -/
def blockTruthy : Option Nat → Bool
  | some b => b ≠ 0
  | none => false

/-- `PricingOracle.fallback_rates`. -/
def fallback_rates (chain_id : ℤ) : List (String × ℚ) :=
  if chain_id = 1 then
    [("ETH", 3200), ("WETH", 3200), ("USDC", 1), ("USDT", 1), ("DAI", 1),
     ("WBTC", 65000), ("UNI", 10), ("COMP", 50), ("stETH", 3200), ("UERII", 1/1000)]
  else if chain_id = 56 then
    [("BNB", 650), ("WBNB", 650), ("USDT", 1), ("BUSD", 1), ("CAKE", 5/2)]
  else []

/-- `PricingOracle._get_chainlink_price`: requires a truthy feed address,
queries historical or latest depending on `if block_number:` truthiness,
and wraps a client result as a `"chainlink"`-sourced `PriceResult`. -/
def get_chainlink_price (env : OracleEnv) (info : TokenInfo) (chain_id : ℤ)
    (block_number : Option Nat) : Option PriceResult :=
  match info.chainlink_feed with
  | none => none
  | some feed =>
    if feed.toList = [] then none
    else
      match (if blockTruthy block_number then
          env.chainlink_hist feed chain_id (block_number.getD 0) info.symbol
        else env.chainlink_latest feed chain_id info.symbol) with
      | some (p, c) =>
        some { price_usd := p, confidence := c, source := "chainlink",
               timestamp := env.now, block_number := block_number,
               token_symbol := info.symbol, chain_id := chain_id }
      | none => none

/-- `PricingOracle._get_dex_price` (only called with a truthy block). -/
def get_dex_price (env : OracleEnv) (info : TokenInfo) (chain_id : ℤ)
    (block_number : Nat) : Option PriceResult :=
  match env.dex_quote info.address chain_id info.symbol block_number with
  | some (p, c) =>
    some { price_usd := p, confidence := c, source := "dex",
           timestamp := env.now, block_number := some block_number,
           token_symbol := info.symbol, chain_id := chain_id }
  | none => none

/-- `PricingOracle._get_coingecko_price`. -/
def get_coingecko_price (env : OracleEnv) (info : TokenInfo) (chain_id : ℤ)
    (block_number : Option Nat) : Option PriceResult :=
  match info.coingecko_id with
  | none => none
  | some cg =>
    match (if blockTruthy block_number then
        env.coingecko_at_block cg chain_id (block_number.getD 0) info.symbol
      else env.coingecko_current cg chain_id info.symbol) with
    | some (p, c) =>
      some { price_usd := p, confidence := c, source := "coingecko",
             timestamp := env.now, block_number := block_number,
             token_symbol := info.symbol, chain_id := chain_id }
    | none => none

/-- `PricingOracle._get_fallback_price`: a hardcoded rate, `if price_usd:`
truthiness (a zero rate would be skipped), confidence 0.3. -/
def get_fallback_price (env : OracleEnv) (info : TokenInfo) (chain_id : ℤ)
    (block_number : Option Nat) : Option PriceResult :=
  match dictGet (fallback_rates chain_id) info.symbol with
  | some p =>
    if p ≠ 0 then
      some { price_usd := p, confidence := 3/10, source := "fallback",
             timestamp := env.now, block_number := block_number,
             token_symbol := info.symbol, chain_id := chain_id }
    else none
  | none => none

/-- The token-info resolution at the top of `get_token_price`:
`none` means the function returns `None` (unknown token); `some none`
means Python proceeds with `token_info = None` and crashes on the next
attribute access (native token on a chain outside the registry);
`some (some info)` proceeds normally. -/
def resolveTokenCandidate (chain_id : ℤ) (address : String) : Option (Option TokenInfo) :=
  match get_token_by_address chain_id address with
  | some info => some (some info)
  | none =>
    if is_native_token address then some (get_native_token_info chain_id) else none

/-- Tier 1 of the waterfall as guarded inside `get_token_price`
(`if token_info.chainlink_feed:` truthiness, then `_get_chainlink_price`). -/
def chainlink_tier (env : OracleEnv) (info : TokenInfo) (chain_id : ℤ)
    (block_number : Option Nat) : Option PriceResult :=
  if optStrTruthy info.chainlink_feed then get_chainlink_price env info chain_id block_number
  else none

/-- Tier 2 (`if block_number:` then `_get_dex_price`). -/
def dex_tier (env : OracleEnv) (info : TokenInfo) (chain_id : ℤ)
    (block_number : Option Nat) : Option PriceResult :=
  if blockTruthy block_number then get_dex_price env info chain_id (block_number.getD 0)
  else none

/-- Tier 3 (`if token_info.coingecko_id:` then `_get_coingecko_price`). -/
def coingecko_tier (env : OracleEnv) (info : TokenInfo) (chain_id : ℤ)
    (block_number : Option Nat) : Option PriceResult :=
  if optStrTruthy info.coingecko_id then get_coingecko_price env info chain_id block_number
  else none

/-- `PricingOracle.get_token_price`: registry resolution, cache, then the
four-tier waterfall in priority order.  `.error ()` is the
`AttributeError` raised when `token_info` ends up `None`. -/
def get_token_price (env : OracleEnv) (token_address : String) (chain_id : ℤ)
    (block_number : Option Nat) : Except Unit (Option PriceResult) :=
  match resolveTokenCandidate chain_id token_address with
  | none => .ok none
  | some none => .error ()
  | some (some info) =>
    match env.cache_get chain_id info.symbol block_number with
    | some cached =>
      .ok (some { price_usd := cached.price_usd, confidence := cached.confidence,
                  source := cached.source, timestamp := cached.timestamp,
                  block_number := cached.block_number,
                  token_symbol := info.symbol, chain_id := chain_id })
    | none =>
      .ok ((chainlink_tier env info chain_id block_number).orElse fun _ =>
           (dex_tier env info chain_id block_number).orElse fun _ =>
           (coingecko_tier env info chain_id block_number).orElse fun _ =>
           get_fallback_price env info chain_id block_number)

/-- `PricingOracle.get_token_price_by_symbol`. -/
def get_token_price_by_symbol (env : OracleEnv) (token_symbol : String) (chain_id : ℤ)
    (block_number : Option Nat) : Except Unit (Option PriceResult) :=
  match get_token_info chain_id token_symbol with
  | none => .ok none
  | some info => get_token_price env info.address chain_id block_number

/-- `PricingOracle.convert_token_to_usd`: `amount * price` when a price
resolves, `None` otherwise. -/
def convert_token_to_usd (env : OracleEnv) (token_address : String) (amount : ℚ)
    (chain_id : ℤ) (block_number : Option Nat) : Except Unit (Option ℚ) :=
  match get_token_price env token_address chain_id block_number with
  | .error e => .error e
  | .ok (some r) => .ok (some (amount * r.price_usd))
  | .ok none => .ok none

/-- `PricingOracle.get_base_currency_price`. -/
def get_base_currency_price (env : OracleEnv) (chain_id : ℤ)
    (block_number : Option Nat) : Except Unit (Option PriceResult) :=
  get_token_price_by_symbol env (get_base_currency chain_id) chain_id block_number

/-- `PricingOracle.normalize_to_base_currency`.  `if not token_usd_value:`
is truthiness — both `None` and a zero USD value yield `None`; a zero
base-currency price would raise `ZeroDivisionError` (`.error ()`). -/
def normalize_to_base_currency (env : OracleEnv) (token_address : String) (amount : ℚ)
    (chain_id : ℤ) (block_number : Option Nat) : Except Unit (Option ℚ) :=
  match convert_token_to_usd env token_address amount chain_id block_number with
  | .error e => .error e
  | .ok none => .ok none
  | .ok (some usd) =>
    if usd = 0 then .ok none
    else
      match get_base_currency_price env chain_id block_number with
      | .error e => .error e
      | .ok none => .ok none
      | .ok (some base) =>
        if base.price_usd = 0 then .error () else .ok (some (usd / base.price_usd))

/-! ## Balance reconciliation — `a1_system/tools/revenue_tool.py`

The surplus-resolution loop (step 2 of `RevenueNormalizerTool.execute`) and
the economic-performance total (step 3) are embedded; extraction of the
balance changes from execution data (step 1) and the USD/profitability
post-processing (steps 4-6) feed from and into the values modelled here. -/

/-- `BalanceChange` dataclass from `revenue_tool.py`. -/
structure BalanceChange where
  token_address : String
  token_symbol : String
  initial_balance : ℚ
  final_balance : ℚ
  net_change : ℚ
  is_surplus : Bool
  value_eth : ℚ := 0
  value_usd : ℚ := 0
deriving DecidableEq, Repr

/-- The dict returned by `RevenueNormalizerTool._convert_surplus_token`. -/
structure SurplusConversion where
  token : String
  amount : ℚ
  base_value : ℚ
  conversion_rate : ℚ
  method : String
deriving DecidableEq, Repr

/-- The dict returned by `RevenueNormalizerTool._resolve_deficit_token`. -/
structure DeficitResolution where
  token : String
  deficit_amount : ℚ
  acquisition_cost_base : ℚ
  method : String
deriving DecidableEq, Repr

/-- `RevenueNormalizerTool._convert_surplus_token`: a `None` from the
oracle becomes a zero `base_value`; the conversion rate divides by the
net change when positive. -/
def convert_surplus_token (env : OracleEnv) (change : BalanceChange)
    (chain_id : ℤ) (block_number : Option Nat) : Except Unit SurplusConversion :=
  match normalize_to_base_currency env change.token_address change.net_change
      chain_id block_number with
  | .error e => .error e
  | .ok bv =>
    let base_value := bv.getD 0
    .ok { token := change.token_symbol
          amount := change.net_change
          base_value := base_value
          conversion_rate :=
            if 0 < change.net_change then base_value / change.net_change else 0
          method := "unified_pricing_oracle" }

/-- `RevenueNormalizerTool._resolve_deficit_token`. -/
def resolve_deficit_token (env : OracleEnv) (change : BalanceChange)
    (chain_id : ℤ) (block_number : Option Nat) : Except Unit DeficitResolution :=
  match normalize_to_base_currency env change.token_address |change.net_change|
      chain_id block_number with
  | .error e => .error e
  | .ok ac =>
    .ok { token := change.token_symbol
          deficit_amount := |change.net_change|
          acquisition_cost_base := ac.getD 0
          method := "unified_pricing_oracle" }

/-- Accumulator of the surplus-resolution loop: direct base-currency
change, total surplus value, surplus conversions, deficit resolutions. -/
structure ReconcileAcc where
  base_currency_change : ℚ
  total_surplus_value : ℚ
  surplus_conversions : List SurplusConversion
  deficit_resolutions : List DeficitResolution
deriving DecidableEq, Repr

/-- One iteration of the `for change in balance_changes` loop in
`RevenueNormalizerTool.execute` (step 2): base-currency changes accumulate
directly; surplus non-base assets are converted and accumulated; deficits
are resolved for the report. -/
def reconcileStep (env : OracleEnv) (chain_id : ℤ) (block_number : Option Nat)
    (base_currency : String) (acc : ReconcileAcc) (change : BalanceChange) :
    Except Unit ReconcileAcc :=
  if change.token_symbol = base_currency then
    .ok { acc with base_currency_change := acc.base_currency_change + change.net_change }
  else if change.is_surplus ∧ 0 < change.net_change then
    match convert_surplus_token env change chain_id block_number with
    | .error e => .error e
    | .ok conv =>
      .ok { acc with
        total_surplus_value := acc.total_surplus_value + conv.base_value
        surplus_conversions := acc.surplus_conversions ++ [conv] }
  else if ¬change.is_surplus ∧ change.net_change < 0 then
    match resolve_deficit_token env change chain_id block_number with
    | .error e => .error e
    | .ok d =>
      .ok { acc with deficit_resolutions := acc.deficit_resolutions ++ [d] }
  else .ok acc

/-- The surplus-resolution loop over all balance changes. -/
def reconcile_balance_changes (env : OracleEnv) (chain_id : ℤ)
    (block_number : Option Nat) (base_currency : String)
    (balance_changes : List BalanceChange) : Except Unit ReconcileAcc :=
  balance_changes.foldlM (reconcileStep env chain_id block_number base_currency)
    { base_currency_change := 0, total_surplus_value := 0,
      surplus_conversions := [], deficit_resolutions := [] }

/-- Step 3 of `RevenueNormalizerTool.execute`: total economic performance
`Π = base_currency_change + total_surplus_value`. -/
def total_base_currency_profit (acc : ReconcileAcc) : ℚ :=
  acc.base_currency_change + acc.total_surplus_value

/-- Specification-side direct base-currency delta: the sum of the net
changes of the balance changes in the base currency. -/
def directBaseDelta (base_currency : String) (changes : List BalanceChange) : ℚ :=
  ((changes.filter (fun c => c.token_symbol = base_currency)).map
    (fun c => c.net_change)).sum

/-! ## Tool calling — `a1_system/tool_calling.py`

`ToolCallExecutor.execute_tool_call` runs one capability under
`asyncio.wait_for`; a capability is modelled by the wall-clock duration it
would take and whether it returns or raises.  `wait_for` cancels the call
and raises `TimeoutError` when the duration exceeds the executor timeout. -/

/-- `ToolCallStatus` enum. -/
inductive ToolCallStatus where
  | pending
  | running
  | completed
  | failed
  | callTimeout
deriving DecidableEq, Repr

/-- `ToolResult` dataclass from `tools/base.py` (the opaque `data` dict is
modelled as an association list). -/
structure ToolResult where
  success : Bool
  data : List (String × String)
  error_message : Option String := none
  execution_time : ℚ := 0
  tool_name : String := ""
deriving DecidableEq, Repr

/-- `ToolCall` dataclass. -/
structure ToolCall where
  id : String
  name : String
  parameters : List (String × String)
  status : ToolCallStatus := .pending
  result : Option ToolResult := none
  error : Option String := none
  execution_time : ℚ := 0
deriving DecidableEq, Repr

/-- What a registered capability does when executed on given parameters:
it runs for `duration` seconds and then either returns a result or raises
an exception with the given text. -/
inductive CapOutcome where
  | returns (r : ToolResult)
  | raises (msg : String)
deriving DecidableEq, Repr

/-- Behaviour of one capability invocation. -/
structure CapBehavior where
  duration : ℚ
  outcome : CapOutcome
deriving DecidableEq, Repr

/-- The executor's collaborators: the registry (`None` = tool not
registered) together with each capability's behaviour as a function of the
call parameters, and the configured per-call timeout (default 30s). -/
structure ToolExecEnv where
  tools : String → Option (List (String × String) → CapBehavior)
  timeout : ℚ

/-- The error text of `asyncio.TimeoutError` handling in
`execute_tool_call` (never inspected by any theorem below). -/
def timeoutErrorText (t : ℚ) : String :=
  "Tool call timed out after " ++ toString t ++ "s"

/-- `ToolCallExecutor.execute_tool_call`: a missing tool raises
`ValueError` (caught as `failed`); a call exceeding the timeout is
cancelled and marked `callTimeout` with `execution_time = timeout`; a raise
is caught as `failed` with the exception text preserved in `error`; a
normal return is `completed` with the result attached.  (The transient
`running` status is overwritten before the function returns.) -/
def execute_tool_call (env : ToolExecEnv) (call : ToolCall) : ToolCall :=
  match env.tools call.name with
  | none =>
    { call with status := .failed
                error := some ("Tool '" ++ call.name ++ "' not found in registry")
                execution_time := 0 }
  | some behave =>
    let b := behave call.parameters
    if env.timeout < b.duration then
      { call with status := .callTimeout
                  error := some (timeoutErrorText env.timeout)
                  execution_time := env.timeout }
    else
      match b.outcome with
      | .returns r =>
        { call with status := .completed, result := some r, execution_time := b.duration }
      | .raises msg =>
        { call with status := .failed, error := some msg, execution_time := b.duration }

/-- `ToolCallExecutor.execute_tool_calls`: both the parallel branch
(`asyncio.gather` over independent per-call tasks) and the sequential loop
apply `execute_tool_call` to each call independently, so per-call results
do not depend on the `parallel` flag; the gather exception branch is
unreachable because `execute_tool_call` catches every exception. -/
def execute_tool_calls (env : ToolExecEnv) (calls : List ToolCall)
    (_parallel : Bool) : List ToolCall :=
  calls.map (execute_tool_call env)

/-! ## Harness execution tool — `a1_system/tools/execution_tool.py`

### Resource flow of `ConcreteExecutionTool.execute`

The filesystem effects are tracked explicitly: which temporary directories
the run creates (`tempfile.mkdtemp`) and which it deletes
(`shutil.rmtree` in `_cleanup_temp_dir`).  The fallible collaborators
(`forge` availability and init, file writes, `_run_foundry_test`,
`_analyze_execution_result`, `rmtree`) are abstract booleans. -/

/-- Collaborator outcomes for one `ConcreteExecutionTool.execute` run. -/
structure HarnessEnv where
  /-- `exploit_code`/`target_address` both non-empty after checksumming. -/
  inputs_ok : Bool
  /-- `_check_foundry` succeeded. -/
  foundry_ok : Bool
  /-- the directory name `tempfile.mkdtemp(prefix="a1_exploit_")` returns. -/
  temp_dir : String
  /-- `forge init` exited with code 0. -/
  forge_init_ok : Bool
  /-- writing `foundry.toml` / test / utils raised an exception. -/
  project_write_raises : Bool
  /-- `_run_foundry_test` or `_analyze_execution_result` raised. -/
  run_or_analyze_raises : Bool
  /-- `shutil.rmtree` in `_cleanup_temp_dir` succeeded (its failure is
  swallowed with a warning). -/
  rmtree_ok : Bool

/-- `ConcreteExecutionTool._create_foundry_project`: `mkdtemp` creates the
directory first; a failing `forge init` or an exception while writing the
project files returns `None` — without removing the directory.  Returns
(project directory or `None`, directories created on disk). -/
def create_foundry_project (env : HarnessEnv) : Option String × List String :=
  let created := [env.temp_dir]
  if ¬env.forge_init_ok then (none, created)
  else if env.project_write_raises then (none, created)
  else (some env.temp_dir, created)

/-- `ConcreteExecutionTool.execute`, tracking directory effects: returns
((ToolResult.success, error_message), directories created, directories
deleted).  The `try/finally` around the run/analyze phase guarantees
`_cleanup_temp_dir` on those paths; the creation-failure path returns
before any cleanup. -/
def executionTool_execute (env : HarnessEnv) :
    (Bool × Option String) × List String × List String :=
  if ¬env.inputs_ok then
    ((false, some "Missing exploit_code or target_address"), [], [])
  else if ¬env.foundry_ok then
    ((false,
      some "Foundry not found. Install with: curl -L https://foundry.paradigm.xyz | bash"),
     [], [])
  else
    match create_foundry_project env with
    | (none, created) =>
      ((false, some "Failed to create Foundry project"), created, [])
    | (some dir, created) =>
      let deleted := if env.rmtree_ok then [dir] else []
      if env.run_or_analyze_raises then
        ((false, some "Execution error"), created, deleted)
      else
        ((true, none), created, deleted)

/-! ### Result analyzer — `_analyze_execution_result`

The marker extraction is embedded concretely: `"..." in output` becomes a
substring test, and the `re.search` patterns used for the claimed outputs
— all of the shape `KEY\s*(\d+)` or `KEY\s*(0x[hex]{40})` over literal
keys — become explicit leftmost-match scanners.  The `analysis_notes`
strings and the exploit-contract-address discovery (step 6) are log/output
fields that do not feed the claimed fields and are omitted. -/

/-- Substring test (`pat in s` for a nonempty literal `pat`). -/
def hasInfix (s pat : List Char) : Bool :=
  if pat.isPrefixOf s then true
  else
    match s with
    | [] => false
    | _ :: t => hasInfix t pat

/-- Python `\s` whitespace. -/
def isWs (c : Char) : Bool :=
  c = ' ' ∨ c = '\t' ∨ c = '\n' ∨ c = '\x0b' ∨ c = '\x0c' ∨ c = '\r'

/-- Numeric value of a digit run. -/
def natOfDigits (l : List Char) : Nat :=
  l.foldl (fun a c => a * 10 + (c.toNat - '0'.toNat)) 0

/-- `re.search(key + r'\s*(\d+)', s)`: at the leftmost position where the
literal key matches and is followed (after greedy whitespace) by at least
one digit, return the digit run's value. -/
def searchKeyNat (key : List Char) : List Char → Option Nat
  | [] => none
  | c :: t =>
    if key.isPrefixOf (c :: t) then
      let rest := ((c :: t).drop key.length).dropWhile isWs
      let digits := rest.takeWhile Char.isDigit
      if digits ≠ [] then some (natOfDigits digits) else searchKeyNat key t
    else searchKeyNat key t

/-- First pattern in the list with a match anywhere in the output wins
(the Python loops `for pattern in patterns: ... break`). -/
def firstKeyNat (keys : List (List Char)) (s : List Char) : Option Nat :=
  match keys with
  | [] => none
  | k :: rest =>
    match searchKeyNat k s with
    | some n => some n
    | none => firstKeyNat rest s

/-- A hex digit of either case (`[a-fA-F0-9]`). -/
def isHexAny (c : Char) : Bool :=
  c.isDigit ∨ ('a' ≤ c ∧ c ≤ 'f') ∨ ('A' ≤ c ∧ c ≤ 'F')

/-- `re.search(key + r'\s*(0x[a-fA-F0-9]{40})', s)`: leftmost occurrence
of the key followed by whitespace, `0x` and at least 40 hex digits; the
first 40 are the captured address. -/
def searchKeyAddr (key : List Char) : List Char → Option (List Char)
  | [] => none
  | c :: t =>
    if key.isPrefixOf (c :: t) then
      match ((c :: t).drop key.length).dropWhile isWs with
      | '0' :: 'x' :: r =>
        let hex := r.takeWhile isHexAny
        if 40 ≤ hex.length then some ('0' :: 'x' :: hex.take 40)
        else searchKeyAddr key t
      | _ => searchKeyAddr key t
    else searchKeyAddr key t

/-- The `eth_gained` patterns of step 3, in priority order. -/
def ethGainedPatterns : List (List Char) :=
  ["ETH_GAINED:".toList, "ETH gained:".toList, "ETH_EQUIVALENT:".toList,
   "Total value extracted (ETH equivalent):".toList]

/-- The `tokens_extracted` patterns of step 4, in priority order. -/
def tokensPatterns : List (List Char) :=
  ["TOKENS_MINTED_DETECTED:".toList, "TOKENS_EXTRACTED:".toList,
   "Tokens extracted:".toList, "FINAL_TOKEN_BALANCE:".toList]

/-- Step 3: ETH gained in base units (`wei / 10^18`, from the first
matching pattern only; `max` with the initial `0.0` is the identity). -/
def ethGainedOf (out : List Char) : ℚ :=
  match firstKeyNat ethGainedPatterns out with
  | some wei => (wei : ℚ) / 10 ^ 18
  | none => 0

/-- Step 4: the single `tokens_extracted` dict entry — amount from the
first matching pattern, keyed by the parsed target address or
`"unknown_token"`. -/
def tokensExtractedOf (out : List Char) : Option (String × Nat) :=
  match firstKeyNat tokensPatterns out with
  | none => none
  | some n =>
    match searchKeyAddr "Target contract:".toList out with
    | some a => some (String.mk a, n)
    | none => some ("unknown_token", n)

/-- The fields of the `analysis` dict produced by
`_analyze_execution_result` that feed the execution outcome. -/
structure AnalysisResult where
  profitable : Bool
  exploit_executed_successfully : Bool
  eth_gained : ℚ
  tokens_extracted : Option (String × Nat)
deriving DecidableEq, Repr

/-- `ConcreteExecutionTool._analyze_execution_result` on
`execution_result["success"]` and `execution_result["output"]`.  A failed
execution returns the all-false defaults immediately; otherwise the
structured markers are parsed and the final success determination (step 7)
ORs the individual signals. -/
def analyze_execution_result (success : Bool) (output : String) : AnalysisResult :=
  if ¬success then
    { profitable := false, exploit_executed_successfully := false,
      eth_gained := 0, tokens_extracted := none }
  else
    let out := output.toList
    let exec1 := hasInfix out "EXPLOIT_EXECUTED_SUCCESSFULLY: true".toList
    let prof1 := hasInfix out "EXPLOIT_PROFITABLE: true".toList
    let eth := ethGainedOf out
    let prof2 := prof1 || decide (0 < eth)
    let toks := tokensExtractedOf out
    let exec2 := exec1 || hasInfix out "EXPLOIT_CAUSED_STATE_CHANGES: true".toList
    let total_tokens := (toks.map Prod.snd).getD 0
    let exec3 := exec2 || decide (0 < total_tokens) || decide (0 < eth) ||
      hasInfix out "STORAGE_CHANGE_DETECTED".toList
    { profitable := prof2, exploit_executed_successfully := exec3,
      eth_gained := eth, tokens_extracted := toks }

/-! ### EIP-55 checksumming — `_to_checksum_address`

The keccak-256 digest comes from the external `Crypto.Hash` library, so
`to_checksum_address` is parametrised over the digest function; every
theorem below holds for an arbitrary digest (the checksummed result for a
valid address depends on it, its idempotence does not, and the
invalid-input path never consults it). -/

/-- Python `s.replace('0x', '')`: remove every non-overlapping occurrence
of `0x`, scanning left to right.  Removal can re-form an occurrence from
the surrounding characters (e.g. `"00xx" → "0x"`), which a second
`replace` would then remove. -/
def strip0x : List Char → List Char
  | '0' :: 'x' :: rest => strip0x rest
  | c :: rest => c :: strip0x rest
  | [] => []

/-- A lower-case hex digit (`c in '0123456789abcdef'`). -/
def isHexLower (c : Char) : Bool := "0123456789abcdef".toList.contains c

/-- `int(c, 16)` on the digest characters.  A non-hex character would make
Python raise `ValueError`; keccak hex digests are always lower-case hex,
so that branch is dead and the junk value `0` here is never produced by a
real digest (no theorem depends on it). -/
def hexValC (c : Char) : Nat :=
  if c.isDigit then c.toNat - '0'.toNat
  else if 'a' ≤ c ∧ c ≤ 'f' then c.toNat - 'a'.toNat + 10
  else if 'A' ≤ c ∧ c ≤ 'F' then c.toNat - 'A'.toNat + 10
  else 0

/-- The EIP-55 loop: digits pass through; a letter is upper-cased when the
digest's hex digit at the same index is ≥ 8.  `digest.getD i '0'` stands
for Python's `address_hash[i]` (a real 64-character digest always has the
index in range for a 40-character address). -/
def checksumChars (digest : List Char) : Nat → List Char → List Char
  | _, [] => []
  | i, c :: rest =>
    (if c.isDigit then c
     else if 8 ≤ hexValC (digest.getD i '0') then c.toUpper else c) ::
      checksumChars digest (i + 1) rest

/-- `ConcreteExecutionTool._to_checksum_address`, parametrised over the
keccak-256 hex digest function. -/
def to_checksum_address (keccakHex : String → String) (address : String) : String :=
  let addr := strip0x (address.toList.map Char.toLower)
  if addr.length = 40 ∧ addr.all isHexLower then
    let digest := (keccakHex (String.mk addr)).toList
    String.mk ('0' :: 'x' :: checksumChars digest 0 addr)
  else
    String.mk ('0' :: 'x' :: addr)

/-- Stand-in for the external keccak-256 hex digest in closed statements;
the properties proved below hold for every digest function, and the
code paths exercised through this stand-in never consult it. -/
def keccakHexStandIn : String → String := fun _ => ""

/-! ## Concrete environments used by closed statements -/

/-- An oracle environment in which every external source fails (the cache
is empty and each client returns `None`/raises). -/
def oracleEnvAllFail : OracleEnv :=
  { cache_get := fun _ _ _ => none
    chainlink_hist := fun _ _ _ _ => none
    chainlink_latest := fun _ _ _ => none
    dex_quote := fun _ _ _ _ => none
    coingecko_at_block := fun _ _ _ _ => none
    coingecko_current := fun _ _ _ => none
    now := 0 }

/-- An oracle environment in which every tier would succeed: the feed
answers 3200, the DEX 1, CoinGecko 2 (and the fallback table is static). -/
def oracleEnvAllSucceed : OracleEnv :=
  { cache_get := fun _ _ _ => none
    chainlink_hist := fun _ _ _ _ => some (3200, 49/50)
    chainlink_latest := fun _ _ _ => some (3200, 19/20)
    dex_quote := fun _ _ _ _ => some (1, 4/5)
    coingecko_at_block := fun _ _ _ _ => some (2, 9/10)
    coingecko_current := fun _ _ _ => some (2, 9/10)
    now := 0 }

/-- An oracle environment for the reconciliation example: the ETH/USD feed
answers 3200 and the UNI/USD feed answers 640, so 1 UNI converts to
exactly 0.2 ETH. -/
def oracleEnvReconcile : OracleEnv :=
  { cache_get := fun _ _ _ => none
    chainlink_hist := fun _ _ _ _ => none
    chainlink_latest := fun feed _ _ =>
      if feed = "0x5f4eC3Df9cbd43714FE2740f5E3616155c5b8419" then some (3200, 19/20)
      else if feed = "0x553303d460EE0afB37EdFf9bE42922D8FF63220e" then some (640, 19/20)
      else none
    dex_quote := fun _ _ _ _ => none
    coingecko_at_block := fun _ _ _ _ => none
    coingecko_current := fun _ _ _ => none
    now := 0 }

/-- The WETH registry entry on chain 1 (used by closed statements). -/
def wethInfo : TokenInfo :=
  { address := "0xC02aaA39b223FE8D0A0e5C4F27eAD9083C756Cc2", symbol := "WETH",
    decimals := 18, name := "Wrapped Ethereum", is_wrapped_native := true,
    coingecko_id := some "ethereum",
    chainlink_feed := some "0x5f4eC3Df9cbd43714FE2740f5E3616155c5b8419" }

/-- A direct base-currency gain of +0.5 ETH. -/
def changeDirectBase : BalanceChange :=
  { token_address := "0x0000000000000000000000000000000000000000"
    token_symbol := "ETH"
    initial_balance := 100000
    final_balance := 100000 + 1/2
    net_change := 1/2
    is_surplus := true }

/-- A surplus of 1 UNI. -/
def changeSurplusUni : BalanceChange :=
  { token_address := "0x1f9840a85d5aF5bf1D1762F925BDADdC4201F984"
    token_symbol := "UNI"
    initial_balance := 0
    final_balance := 1
    net_change := 1
    is_surplus := true }

/-- A surplus of a token unknown to the registry (so every waterfall tier
is unavailable for it). -/
def changeSurplusUnknown : BalanceChange :=
  { token_address := "0x1234567890123456789012345678901234567890"
    token_symbol := "MYSTERY"
    initial_balance := 0
    final_balance := 7
    net_change := 7
    is_surplus := true }

/-- A harness run in which `forge init` fails after `mkdtemp` created the
temporary directory. -/
def harnessEnvInitFails : HarnessEnv :=
  { inputs_ok := true, foundry_ok := true, temp_dir := "/tmp/a1_exploit_demo",
    forge_init_ok := false, project_write_raises := false,
    run_or_analyze_raises := false, rmtree_ok := true }

/-- A harness run in which the project is created and the run/analyze
phase raises an exception. -/
def harnessEnvRunRaises : HarnessEnv :=
  { inputs_ok := true, foundry_ok := true, temp_dir := "/tmp/a1_exploit_demo2",
    forge_init_ok := true, project_write_raises := false,
    run_or_analyze_raises := true, rmtree_ok := true }

/-- A tool registry with a normal capability, one that raises, and one
that overruns the 30s executor timeout. -/
def toolExecEnvDemo : ToolExecEnv :=
  { tools := fun n =>
      if n = "liquidity_tool" then
        some (fun _ => ⟨1, .returns ⟨true, [("pools", "3")], none, 0, "liquidity_tool"⟩⟩)
      else if n = "failing_tool" then
        some (fun _ => ⟨1, .raises "RuntimeError: capability exploded"⟩)
      else if n = "slow_tool" then
        some (fun _ => ⟨100, .returns ⟨true, [], none, 0, "slow_tool"⟩⟩)
      else none
    timeout := 30 }

/-! ## Theorems -/

/-- No chain's registry contains a token with symbol `"X"`. -/
lemma get_token_info_X (c : ℤ) : get_token_info c "X" = none := by
  unfold get_token_info registryTokens
  split
  · decide
  · split
    · decide
    · decide

/-- C1: for the balance-change list `[{token: "X", initial: 100, final: 0}]`
and any chain id, `validate_balance_invariant` returns `is_valid = false`
together with exactly one violation, of kind `depletion` with
`violation_amount = 100`. -/
theorem validate_depletion_single_violation (c : ℤ) :
    validate_balance_invariant [⟨"X", 100, 0⟩] c =
      (false, [⟨"X", "", 100, 0, 100, c, "depletion"⟩]) := by
  have hX := get_token_info_X c
  simp [validate_balance_invariant, invariantViolationsFor, violationTokenAddress, hX]

/-- C2 counterexample: the paper-compliance pass on
`[{token: "ETH", initial: 1e5, final: 0}]` (chain 1) produces exactly one
violation, whose kind is `"insufficient_funds"` — a value outside the
claimed set `{depletion, negative_balance, insufficient_provisioning}`. -/
theorem paper_compliance_kind_outside_claimed_set :
    (validate_paper_compliance [⟨"ETH", 100000, 0⟩] 1).2.map
        (fun v => v.violation_type) = ["insufficient_funds"] ∧
      "insufficient_funds" ∉
        ["depletion", "negative_balance", "insufficient_provisioning"] := by
  constructor
  · simp [validate_paper_compliance, paperViolationsFor, PAPER_INITIAL_BALANCES, dictGet]
  · decide

/-- C2 (amended): every violation produced by the basic invariant pass or
by the paper-compliance pass has kind in
`{depletion, negative_balance, insufficient_funds}`. -/
theorem validator_violation_kinds (changes : List BalanceChangeDict) (c : ℤ)
    (v : BalanceInvariantViolation)
    (h : v ∈ (validate_balance_invariant changes c).2 ∨
         v ∈ (validate_paper_compliance changes c).2) :
    v.violation_type ∈ ["depletion", "negative_balance", "insufficient_funds"] := by
  rcases h with h | h
  · simp only [validate_balance_invariant, List.mem_flatMap] at h
    obtain ⟨ch, -, hv⟩ := h
    unfold invariantViolationsFor at hv
    simp only [List.mem_append] at hv
    rcases hv with hv | hv <;> split at hv <;> simp_all
  · simp only [validate_paper_compliance, List.mem_flatMap] at h
    obtain ⟨ch, -, hv⟩ := h
    unfold paperViolationsFor at hv
    split at hv
    · simp at hv
    · split at hv <;> simp_all

/-- Witness for C2 (amended) at a concrete input: the depletion violation
from `[{token: "X", initial: 100, final: 0}]` on chain 1. -/
theorem validator_violation_kinds_witness :
    ((⟨"X", "", 100, 0, 100, 1, "depletion"⟩ : BalanceInvariantViolation) ∈
        (validate_balance_invariant [⟨"X", 100, 0⟩] 1).2 ∨
      (⟨"X", "", 100, 0, 100, 1, "depletion"⟩ : BalanceInvariantViolation) ∈
        (validate_paper_compliance [⟨"X", 100, 0⟩] 1).2) ∧
    (⟨"X", "", 100, 0, 100, 1, "depletion"⟩ : BalanceInvariantViolation).violation_type ∈
      ["depletion", "negative_balance", "insufficient_funds"] := by
  have hm : (⟨"X", "", 100, 0, 100, 1, "depletion"⟩ : BalanceInvariantViolation) ∈
      (validate_balance_invariant [⟨"X", 100, 0⟩] 1).2 := by
    simp [validate_balance_invariant, invariantViolationsFor, violationTokenAddress,
      get_token_info_X 1]
  exact ⟨Or.inl hm, validator_violation_kinds _ _ _ (Or.inl hm)⟩

/-- C10: block number 0 is keyed identically to "latest": the cache key
coincides, `get_price` at block 0 equals `get_price` with no block, and an
entry written by `set_price` at block 0 is returned by a subsequent fresh
`get_price` with no block number (the two shadow each other). -/
theorem cache_block_zero_keys_latest
    (st : PriceCacheState) (max_age now now' : ℚ) (c : ℤ) (sym : String)
    (price : ℚ) (src : String) (conf : ℚ) (ts : Option ℤ) (nowInt : ℤ)
    (h : now' - now < max_age) :
    cacheKey c sym (some 0) = cacheKey c sym none ∧
    PriceCache.get_price st max_age now c sym (some 0) =
      PriceCache.get_price st max_age now c sym none ∧
    (PriceCache.get_price
        (PriceCache.set_price st c sym price src conf (some 0) ts nowInt now).2
        max_age now' c sym none).1 =
      some (PriceCache.set_price st c sym price src conf (some 0) ts nowInt now).1 := by
  have hk : cacheKey c sym (some 0) = cacheKey c sym none := by simp [cacheKey]
  refine ⟨hk, ?_, ?_⟩
  · unfold PriceCache.get_price
    rw [hk]
  · unfold PriceCache.get_price PriceCache.set_price
    simp [hk, h]

/-- Witness for C10 at a concrete input: empty cache, write price 3200 for
ETH at block 0 at time 0, read back with no block number at time 1 under
the default 24h max age. -/
theorem cache_block_zero_keys_latest_witness :
    ((1:ℚ) - 0 < 86400) ∧
    (cacheKey 1 "ETH" (some 0) = cacheKey 1 "ETH" none ∧
     PriceCache.get_price ⟨fun _ => none, fun _ _ => none⟩ 86400 0 1 "ETH" (some 0) =
       PriceCache.get_price ⟨fun _ => none, fun _ _ => none⟩ 86400 0 1 "ETH" none ∧
     (PriceCache.get_price
         (PriceCache.set_price ⟨fun _ => none, fun _ _ => none⟩ 1 "ETH" 3200 "chainlink" 1
           (some 0) none 0 0).2 86400 1 1 "ETH" none).1 =
       some (PriceCache.set_price ⟨fun _ => none, fun _ _ => none⟩ 1 "ETH" 3200 "chainlink" 1
           (some 0) none 0 0).1) :=
  ⟨by norm_num,
   cache_block_zero_keys_latest _ _ _ _ _ _ _ _ _ _ _ (by norm_num)⟩

/-- A successful `_get_chainlink_price` result always carries source
`"chainlink"`. -/
lemma get_chainlink_price_source {env : OracleEnv} {info : TokenInfo} {c : ℤ}
    {b : Option Nat} {r : PriceResult}
    (h : get_chainlink_price env info c b = some r) : r.source = "chainlink" := by
  unfold get_chainlink_price at h
  split at h
  · exact Option.noConfusion h
  · split at h
    · exact Option.noConfusion h
    · split at h
      · injection h with h
        subst h
        rfl
      · exact Option.noConfusion h

/-- C5: when `get_token_price` resolves through the waterfall (token
resolved, no cache hit) and tier 1 (the Chainlink feed) returns a price,
the returned result is exactly that tier-1 result and its source is
`"chainlink"`, independently of what tiers 2–4 would return. -/
theorem waterfall_tier1_precedence (env : OracleEnv) (addr : String) (c : ℤ)
    (b : Option Nat) (info : TokenInfo) (r : PriceResult)
    (hinfo : resolveTokenCandidate c addr = some (some info))
    (hcache : env.cache_get c info.symbol b = none)
    (htier1 : chainlink_tier env info c b = some r) :
    get_token_price env addr c b = .ok (some r) ∧ r.source = "chainlink" := by
  have hsrc : r.source = "chainlink" := by
    unfold chainlink_tier at htier1
    split at htier1
    · exact get_chainlink_price_source htier1
    · exact Option.noConfusion htier1
  refine ⟨?_, hsrc⟩
  simp [get_token_price, hinfo, hcache, htier1, Option.orElse]

/-- Witness for C5: WETH on chain 1 at block 5, in an environment where
every tier (feed, DEX, CoinGecko, fallback) would succeed — the resolved
source is still the tier-1 feed. -/
theorem waterfall_tier1_precedence_witness :
    (resolveTokenCandidate 1 "0xC02aaA39b223FE8D0A0e5C4F27eAD9083C756Cc2" =
        some (some wethInfo) ∧
      oracleEnvAllSucceed.cache_get 1 wethInfo.symbol (some 5) = none ∧
      chainlink_tier oracleEnvAllSucceed wethInfo 1 (some 5) =
        some { price_usd := 3200, confidence := 49/50, source := "chainlink",
               timestamp := 0, block_number := some 5, token_symbol := "WETH",
               chain_id := 1 } ∧
      dex_tier oracleEnvAllSucceed wethInfo 1 (some 5) ≠ none ∧
      coingecko_tier oracleEnvAllSucceed wethInfo 1 (some 5) ≠ none ∧
      get_fallback_price oracleEnvAllSucceed wethInfo 1 (some 5) ≠ none) ∧
    get_token_price oracleEnvAllSucceed "0xC02aaA39b223FE8D0A0e5C4F27eAD9083C756Cc2" 1
        (some 5) =
      .ok (some { price_usd := 3200, confidence := 49/50, source := "chainlink",
                  timestamp := 0, block_number := some 5, token_symbol := "WETH",
                  chain_id := 1 }) := by
  refine ⟨⟨rfl, rfl, rfl, ?_, ?_, ?_⟩, ?_⟩
  · intro h
    exact Option.noConfusion h
  · intro h
    exact Option.noConfusion h
  · intro h
    exact Option.noConfusion h
  · exact (waterfall_tier1_precedence oracleEnvAllSucceed
      "0xC02aaA39b223FE8D0A0e5C4F27eAD9083C756Cc2" 1 (some 5) wethInfo
      { price_usd := 3200, confidence := 49/50, source := "chainlink",
        timestamp := 0, block_number := some 5, token_symbol := "WETH", chain_id := 1 }
      rfl rfl rfl).1

/-- C3 counterexample: with every waterfall tier unavailable for the token
(`0x1234…` is unknown to the registry and every client fails),
`convert_token_to_usd` returns `None` (`Unavailable`), not `0`. -/
theorem convert_unavailable_is_none_not_zero :
    convert_token_to_usd oracleEnvAllFail "0x1234567890123456789012345678901234567890"
        7 1 (some 12345) = .ok none ∧
    convert_token_to_usd oracleEnvAllFail "0x1234567890123456789012345678901234567890"
        7 1 (some 12345) ≠ .ok (some 0) := by
  refine ⟨rfl, ?_⟩
  intro h
  rw [show convert_token_to_usd oracleEnvAllFail
      "0x1234567890123456789012345678901234567890" 7 1 (some 12345) = .ok none from rfl] at h
  injection h with h
  exact Option.noConfusion h

/-- C3 (amended): when the whole pricing waterfall yields `Unavailable`
for a token, `convert_token_to_usd` returns `None` without raising, and
the enclosing reconciliation's surplus conversion completes with a zero
base-currency contribution for that asset. -/
theorem convert_unavailable_degrades (env : OracleEnv) (change : BalanceChange)
    (c : ℤ) (b : Option Nat)
    (h : get_token_price env change.token_address c b = .ok none) :
    convert_token_to_usd env change.token_address change.net_change c b = .ok none ∧
    convert_surplus_token env change c b =
      .ok { token := change.token_symbol, amount := change.net_change,
            base_value := 0, conversion_rate := 0,
            method := "unified_pricing_oracle" } := by
  have hc : convert_token_to_usd env change.token_address change.net_change c b =
      .ok none := by
    unfold convert_token_to_usd
    rw [h]
  refine ⟨hc, ?_⟩
  unfold convert_surplus_token normalize_to_base_currency
  rw [hc]
  simp only [Option.getD]
  split <;> simp [zero_div]

/-- Witness for C3 (amended): the unknown surplus token in the all-failing
environment. -/
theorem convert_unavailable_degrades_witness :
    get_token_price oracleEnvAllFail changeSurplusUnknown.token_address 1 (some 12345) =
        .ok none ∧
    (convert_token_to_usd oracleEnvAllFail changeSurplusUnknown.token_address
        changeSurplusUnknown.net_change 1 (some 12345) = .ok none ∧
     convert_surplus_token oracleEnvAllFail changeSurplusUnknown 1 (some 12345) =
       .ok { token := "MYSTERY", amount := 7, base_value := 0, conversion_rate := 0,
             method := "unified_pricing_oracle" }) :=
  ⟨rfl, convert_unavailable_degrades oracleEnvAllFail changeSurplusUnknown 1 (some 12345) rfl⟩

/-- Unfolding `directBaseDelta` over a cons cell. -/
lemma directBaseDelta_cons (base : String) (x : BalanceChange) (xs : List BalanceChange) :
    directBaseDelta base (x :: xs) =
      (if x.token_symbol = base then x.net_change else 0) + directBaseDelta base xs := by
  unfold directBaseDelta
  split <;> simp_all [List.filter_cons]

/-- Invariant of the surplus-resolution loop: relative to the starting
accumulator, the direct base-currency change grows by the base-currency
net changes and the total surplus value grows by exactly the sum of the
base values of the surplus conversions appended along the way. -/
lemma reconcile_fold_spec (env : OracleEnv) (c : ℤ) (b : Option Nat) (base : String) :
    ∀ (changes : List BalanceChange) (acc res : ReconcileAcc),
      changes.foldlM (reconcileStep env c b base) acc = .ok res →
      res.base_currency_change = acc.base_currency_change + directBaseDelta base changes ∧
      ∃ l, res.surplus_conversions = acc.surplus_conversions ++ l ∧
        res.total_surplus_value =
          acc.total_surplus_value + (l.map (fun cv => cv.base_value)).sum := by
  intro changes
  induction changes with
  | nil =>
    intro acc res h
    simp only [List.foldlM_nil] at h
    injection h with h
    subst h
    exact ⟨by simp [directBaseDelta], [], by simp, by simp⟩
  | cons x xs ih =>
    intro acc res h
    simp only [List.foldlM_cons] at h
    cases hstep : reconcileStep env c b base acc x with
    | error e =>
      rw [hstep] at h
      exact Except.noConfusion h
    | ok acc' =>
      rw [hstep] at h
      simp only [bind, Except.bind] at h
      have hspec := ih acc' res h
      unfold reconcileStep at hstep
      split at hstep
      · rename_i hx
        injection hstep with hstep
        subst hstep
        obtain ⟨hbc, l, hsc, htv⟩ := hspec
        refine ⟨?_, l, by simpa using hsc, by simpa using htv⟩
        rw [hbc, directBaseDelta_cons]
        simp [hx]
        ring
      · split at hstep
        · rename_i hx hs
          cases hconv : convert_surplus_token env x c b with
          | error e =>
            rw [hconv] at hstep
            exact Except.noConfusion hstep
          | ok conv =>
            rw [hconv] at hstep
            injection hstep with hstep
            subst hstep
            obtain ⟨hbc, l, hsc, htv⟩ := hspec
            refine ⟨?_, conv :: l, ?_, ?_⟩
            · rw [hbc, directBaseDelta_cons]
              simp [hx]
            · simpa using hsc
            · rw [htv, List.map_cons, List.sum_cons]
              ring
        · split at hstep
          · rename_i hx hs hd
            cases hdef : resolve_deficit_token env x c b with
            | error e =>
              rw [hdef] at hstep
              exact Except.noConfusion hstep
            | ok d =>
              rw [hdef] at hstep
              injection hstep with hstep
              subst hstep
              obtain ⟨hbc, l, hsc, htv⟩ := hspec
              refine ⟨?_, l, by simpa using hsc, by simpa using htv⟩
              rw [hbc, directBaseDelta_cons]
              simp [hx]
          · rename_i hx hs hd
            injection hstep with hstep
            subst hstep
            obtain ⟨hbc, l, hsc, htv⟩ := hspec
            refine ⟨?_, l, hsc, htv⟩
            rw [hbc, directBaseDelta_cons]
            simp [hx]

/-- C8: when the surplus-resolution loop completes, the total economic
performance `Π = base_currency_change + total_surplus_value` equals the
direct base-currency delta plus the sum of the recorded surplus
conversions. -/
theorem reconcile_profit_decomposition (env : OracleEnv) (c : ℤ) (b : Option Nat)
    (base : String) (changes : List BalanceChange) (res : ReconcileAcc)
    (h : reconcile_balance_changes env c b base changes = .ok res) :
    res.base_currency_change = directBaseDelta base changes ∧
    res.total_surplus_value =
      (res.surplus_conversions.map (fun cv => cv.base_value)).sum ∧
    total_base_currency_profit res =
      directBaseDelta base changes +
        (res.surplus_conversions.map (fun cv => cv.base_value)).sum := by
  obtain ⟨hbc, l, hsc, htv⟩ := reconcile_fold_spec env c b base changes _ res h
  simp only [List.nil_append] at hsc
  subst hsc
  refine ⟨by simpa using hbc, by simpa using htv, ?_⟩
  unfold total_base_currency_profit
  rw [hbc, htv]
  simp

/-- The 1-UNI surplus converts to exactly 0.2 ETH in the example
environment (UNI at $640, ETH at $3200). -/
lemma normalize_uni_is_one_fifth :
    normalize_to_base_currency oracleEnvReconcile
      "0x1f9840a85d5aF5bf1D1762F925BDADdC4201F984" 1 1 none = .ok (some (1/5)) := by
  have h1 : convert_token_to_usd oracleEnvReconcile
      "0x1f9840a85d5aF5bf1D1762F925BDADdC4201F984" 1 1 none = .ok (some (1 * 640)) := rfl
  have h2 : get_base_currency_price oracleEnvReconcile 1 none =
      .ok (some ⟨3200, 19/20, "chainlink", 0, none, "ETH", 1⟩) := rfl
  simp only [normalize_to_base_currency, h1, h2]
  norm_num

/-- The surplus conversion of the 1-UNI change. -/
lemma convert_surplus_uni :
    convert_surplus_token oracleEnvReconcile
      { token_address := "0x1f9840a85d5aF5bf1D1762F925BDADdC4201F984", token_symbol := "UNI",
        initial_balance := 0, final_balance := 1, net_change := 1, is_surplus := true,
        value_eth := 0, value_usd := 0 } 1 none =
      .ok ⟨"UNI", 1, 1/5, 1/5, "unified_pricing_oracle"⟩ := by
  simp only [convert_surplus_token, normalize_uni_is_one_fifth]
  norm_num

/-- Running the loop on the +0.5 ETH / +1 UNI example. -/
lemma reconcile_example_run :
    reconcile_balance_changes oracleEnvReconcile 1 none "ETH"
        [changeDirectBase, changeSurplusUni] =
      .ok ⟨1/2, 1/5, [⟨"UNI", 1, 1/5, 1/5, "unified_pricing_oracle"⟩], []⟩ := by
  unfold reconcile_balance_changes
  simp [List.foldlM_cons, List.foldlM_nil, reconcileStep, changeDirectBase,
    changeSurplusUni, bind, Except.bind, convert_surplus_uni]
  rfl

/-- Witness for C8: a direct base-currency delta of +0.5 together with one
surplus conversion worth 0.2 yields `Π = 0.7` (within tolerance 1e-9). -/
theorem reconcile_profit_decomposition_witness :
    reconcile_balance_changes oracleEnvReconcile 1 none "ETH"
        [changeDirectBase, changeSurplusUni] =
      .ok ⟨1/2, 1/5, [⟨"UNI", 1, 1/5, 1/5, "unified_pricing_oracle"⟩], []⟩ ∧
    total_base_currency_profit
        ⟨1/2, 1/5, [⟨"UNI", 1, 1/5, 1/5, "unified_pricing_oracle"⟩], []⟩ =
      directBaseDelta "ETH" [changeDirectBase, changeSurplusUni] +
        (([⟨"UNI", 1, 1/5, 1/5, "unified_pricing_oracle"⟩] : List SurplusConversion).map
          (fun cv => cv.base_value)).sum ∧
    |total_base_currency_profit
        ⟨1/2, 1/5, [⟨"UNI", 1, 1/5, 1/5, "unified_pricing_oracle"⟩], []⟩ - 7/10| ≤
      1/1000000000 := by
  refine ⟨reconcile_example_run, ?_, ?_⟩
  · exact (reconcile_profit_decomposition oracleEnvReconcile 1 none "ETH"
      [changeDirectBase, changeSurplusUni] _ reconcile_example_run).2.2
  · norm_num [total_base_currency_profit]

/-- C7: in a batch, a capability returning normally within the timeout
yields `completed` with its result attached, a raising capability yields
`failed` with the exception text preserved in `error`, and a call
exceeding the timeout yields `callTimeout`; the three sibling calls do not
affect each other, and the batch statuses are exactly
`[completed, failed, callTimeout]`. -/
theorem tool_batch_statuses (env : ToolExecEnv) (c1 c2 c3 : ToolCall)
    (b1 b2 b3 : List (String × String) → CapBehavior)
    (r : ToolResult) (d1 d2 : ℚ) (msg : String) (bh3 : CapBehavior) (par : Bool)
    (h1 : env.tools c1.name = some b1) (hb1 : b1 c1.parameters = ⟨d1, .returns r⟩)
    (hd1 : ¬ env.timeout < d1)
    (h2 : env.tools c2.name = some b2) (hb2 : b2 c2.parameters = ⟨d2, .raises msg⟩)
    (hd2 : ¬ env.timeout < d2)
    (h3 : env.tools c3.name = some b3) (hb3 : b3 c3.parameters = bh3)
    (hd3 : env.timeout < bh3.duration) :
    execute_tool_calls env [c1, c2, c3] par =
      [{ c1 with status := .completed, result := some r, execution_time := d1 },
       { c2 with status := .failed, error := some msg, execution_time := d2 },
       { c3 with status := .callTimeout, error := some (timeoutErrorText env.timeout),
                 execution_time := env.timeout }] ∧
    (execute_tool_calls env [c1, c2, c3] par).map (fun tc => tc.status) =
      [.completed, .failed, .callTimeout] := by
  have he : execute_tool_calls env [c1, c2, c3] par =
      [execute_tool_call env c1, execute_tool_call env c2, execute_tool_call env c3] := rfl
  have e1 : execute_tool_call env c1 =
      { c1 with status := .completed, result := some r, execution_time := d1 } := by
    simp [execute_tool_call, h1, hb1, hd1]
  have e2 : execute_tool_call env c2 =
      { c2 with status := .failed, error := some msg, execution_time := d2 } := by
    simp [execute_tool_call, h2, hb2, hd2]
  have e3 : execute_tool_call env c3 =
      { c3 with status := .callTimeout, error := some (timeoutErrorText env.timeout),
                execution_time := env.timeout } := by
    simp [execute_tool_call, h3, hb3, hd3]
  rw [he, e1, e2, e3]
  exact ⟨rfl, rfl⟩

/-- Witness for C7: the three-call scenario of §8 against the demo
registry (normal call, raising call, 100s call under a 30s timeout). -/
theorem tool_batch_statuses_witness :
    (¬ (30:ℚ) < 1) ∧ ((30:ℚ) < 100) ∧
    (execute_tool_calls toolExecEnvDemo
        [{ id := "1", name := "liquidity_tool", parameters := [] },
         { id := "2", name := "failing_tool", parameters := [] },
         { id := "3", name := "slow_tool", parameters := [] }] true =
      [{ id := "1", name := "liquidity_tool", parameters := [], status := .completed,
         result := some ⟨true, [("pools", "3")], none, 0, "liquidity_tool"⟩,
         error := none, execution_time := 1 },
       { id := "2", name := "failing_tool", parameters := [], status := .failed,
         result := none, error := some "RuntimeError: capability exploded",
         execution_time := 1 },
       { id := "3", name := "slow_tool", parameters := [], status := .callTimeout,
         result := none, error := some (timeoutErrorText 30), execution_time := 30 }] ∧
     (execute_tool_calls toolExecEnvDemo
        [{ id := "1", name := "liquidity_tool", parameters := [] },
         { id := "2", name := "failing_tool", parameters := [] },
         { id := "3", name := "slow_tool", parameters := [] }] true).map
        (fun tc => tc.status) = [.completed, .failed, .callTimeout]) :=
  ⟨by norm_num, by norm_num,
   tool_batch_statuses toolExecEnvDemo _ _ _ _ _ _ _ _ _ _ _ _
     rfl rfl (by norm_num [toolExecEnvDemo]) rfl rfl (by norm_num [toolExecEnvDemo])
     rfl rfl (by norm_num [toolExecEnvDemo])⟩

/-- C4 counterexample: when `forge init` fails, `_create_foundry_project`
has already created the temporary directory with `mkdtemp`, yet the run
returns without deleting it — the claimed every-exit-path cleanup fails on
the creation-failure path. -/
theorem temp_dir_leak_on_init_failure :
    (executionTool_execute harnessEnvInitFails).2.1 = ["/tmp/a1_exploit_demo"] ∧
    (executionTool_execute harnessEnvInitFails).2.2 = [] ∧
    "/tmp/a1_exploit_demo" ∉ (executionTool_execute harnessEnvInitFails).2.2 := by
  refine ⟨rfl, rfl, ?_⟩
  rw [show (executionTool_execute harnessEnvInitFails).2.2 = [] from rfl]
  simp

/-- A successful `_create_foundry_project` returns the freshly created
temporary directory as both its result and its only created directory. -/
lemma create_foundry_project_some {env : HarnessEnv} {dir : String}
    (h : (create_foundry_project env).1 = some dir) :
    create_foundry_project env = (some dir, [dir]) ∧ dir = env.temp_dir := by
  unfold create_foundry_project at h
  split at h
  · exact Option.noConfusion h
  · split at h
    · exact Option.noConfusion h
    · injection h with h
      subst h
      rename_i h1 h2
      refine ⟨?_, rfl⟩
      unfold create_foundry_project
      simp only [if_neg h1, if_neg h2]

/-- C4 (amended): once the Foundry project has been created successfully,
the temporary directory is deleted on every exit path of `execute` —
success, failure and exception during run/analyze — provided the `rmtree`
call itself succeeds; on the paths where creation fails after `mkdtemp`
(forge-init failure, exception while writing project files) the directory
is left behind. -/
theorem temp_dir_cleanup_after_creation (env : HarnessEnv) (dir : String)
    (hin : env.inputs_ok = true) (hfo : env.foundry_ok = true)
    (hcr : (create_foundry_project env).1 = some dir)
    (hrm : env.rmtree_ok = true) :
    (executionTool_execute env).2.1 = [dir] ∧
    (executionTool_execute env).2.2 = [dir] := by
  obtain ⟨hc, hd⟩ := create_foundry_project_some hcr
  subst hd
  unfold executionTool_execute
  rw [hc]
  simp [hin, hfo, hrm]
  split <;> simp

/-- Witness for C4 (amended), on the exception exit path: run/analyze
raises, and the created directory is still deleted. -/
theorem temp_dir_cleanup_after_creation_witness :
    harnessEnvRunRaises.inputs_ok = true ∧
    (create_foundry_project harnessEnvRunRaises).1 = some "/tmp/a1_exploit_demo2" ∧
    ((executionTool_execute harnessEnvRunRaises).2.1 = ["/tmp/a1_exploit_demo2"] ∧
     (executionTool_execute harnessEnvRunRaises).2.2 = ["/tmp/a1_exploit_demo2"]) :=
  ⟨rfl, rfl,
   temp_dir_cleanup_after_creation harnessEnvRunRaises "/tmp/a1_exploit_demo2"
     rfl rfl rfl rfl⟩

/-- C6 counterexample: when the harness run itself is marked failed
(`execution_result["success"] = False`), the analyzer returns
`exploit_executed_successfully = false` even though the token-extraction
signal is present in the output — the signals alone are not sufficient. -/
theorem analyzer_ignores_signals_on_failed_run :
    tokensExtractedOf "TOKENS_EXTRACTED: 5".toList = some ("unknown_token", 5) ∧
    (analyze_execution_result false "TOKENS_EXTRACTED: 5").exploit_executed_successfully
      = false := by
  constructor
  · decide
  · rfl

/-- C6 (amended): provided the harness run succeeded
(`execution_result["success"]`), any single signal — the
executed-successfully marker, either state-change marker, a positive
token extraction, or positive ETH gained — makes the analyzer report
`exploit_executed_successfully = true`. -/
theorem analyzer_any_signal_sufficient (output : String)
    (h : hasInfix output.toList "EXPLOIT_EXECUTED_SUCCESSFULLY: true".toList = true ∨
         hasInfix output.toList "EXPLOIT_CAUSED_STATE_CHANGES: true".toList = true ∨
         hasInfix output.toList "STORAGE_CHANGE_DETECTED".toList = true ∨
         0 < ((tokensExtractedOf output.toList).map Prod.snd).getD 0 ∨
         0 < ethGainedOf output.toList) :
    (analyze_execution_result true output).exploit_executed_successfully = true := by
  unfold analyze_execution_result
  simp only [Bool.not_true, Bool.false_eq_true, if_false]
  rcases h with h | h | h | h | h <;> simp at h ⊢ <;> simp [h]

/-- Witness for C6 (amended): the state-change marker alone suffices. -/
theorem analyzer_any_signal_sufficient_witness :
    (hasInfix "EXPLOIT_CAUSED_STATE_CHANGES: true".toList
        "EXPLOIT_CAUSED_STATE_CHANGES: true".toList = true ∨
      False) ∧
    (analyze_execution_result true
      "EXPLOIT_CAUSED_STATE_CHANGES: true").exploit_executed_successfully = true :=
  ⟨Or.inl (by decide),
   analyzer_any_signal_sufficient "EXPLOIT_CAUSED_STATE_CHANGES: true"
     (Or.inr (Or.inl (by decide)))⟩

/-- Characters of a valid lower-hex address: `toLower` fixes them, undoes
`toUpper` on them, and neither form is `'x'`. -/
lemma isHexLower_facts (c : Char) (h : isHexLower c = true) :
    Char.toLower c = c ∧ Char.toLower c.toUpper = c ∧ c ≠ 'x' ∧ c.toUpper ≠ 'x' := by
  unfold isHexLower at h
  simp at h
  rcases h with rfl | rfl | rfl | rfl | rfl | rfl | rfl | rfl | rfl | rfl | rfl | rfl |
    rfl | rfl | rfl | rfl <;> exact ⟨by decide, by decide, by decide, by decide⟩

/-- Lower-casing the EIP-55 checksummed characters restores the original
lower-hex address, whatever the digest. -/
lemma checksumChars_toLower (d : List Char) :
    ∀ (l : List Char) (i : Nat), (∀ c ∈ l, isHexLower c = true) →
      (checksumChars d i l).map Char.toLower = l := by
  intro l
  induction l with
  | nil => intro i _; rfl
  | cons c rest ih =>
    intro i hl
    have hc := isHexLower_facts c (hl c (List.mem_cons_self c rest))
    have hrest : ∀ x ∈ rest, isHexLower x = true := fun x hx => hl x (List.mem_cons_of_mem c hx)
    unfold checksumChars
    simp only [List.map_cons, ih (i+1) hrest]
    congr 1
    split
    · exact hc.1
    · split
      · exact hc.2.1
      · exact hc.1

/-- Checksummed characters of a lower-hex address never contain `'x'`. -/
lemma checksumChars_no_x (d : List Char) :
    ∀ (l : List Char) (i : Nat), (∀ c ∈ l, isHexLower c = true) →
      ∀ c ∈ checksumChars d i l, c ≠ 'x' := by
  intro l
  induction l with
  | nil => intro i _ c hc; exact absurd hc (List.not_mem_nil c)
  | cons a rest ih =>
    intro i hl c hc
    have ha := isHexLower_facts a (hl a (List.mem_cons_self a rest))
    have hrest : ∀ x ∈ rest, isHexLower x = true := fun x hx => hl x (List.mem_cons_of_mem a hx)
    unfold checksumChars at hc
    rcases List.mem_cons.mp hc with rfl | hc
    · split
      · exact ha.2.2.1
      · split
        · exact ha.2.2.2
        · exact ha.2.2.1
    · exact ih (i+1) hrest c hc

/-- `replace('0x','')` is the identity on strings without `'x'`. -/
lemma strip0x_no_x : ∀ (l : List Char), (∀ c ∈ l, c ≠ 'x') → strip0x l = l := by
  intro l
  induction l using strip0x.induct with
  | case1 rest ih =>
    intro h
    exact absurd rfl (h 'x' (by simp))
  | case2 c rest hne ih =>
    intro h
    rw [strip0x.eq_def]
    split
    · rename_i r heq
      injection heq with h1 h2
      exact (hne r h1 h2).elim
    · rename_i c' rest' heq
      injection heq with h1 h2
      subst h1
      subst h2
      exact congrArg (List.cons c) (ih (fun x hx => h x (List.mem_cons_of_mem c hx)))
    · rename_i heq
      exact List.noConfusion heq
  | case3 =>
    intro h
    rfl

/-- On the invalid-input path the digest function is never consulted:
for every digest, checksumming `"00xx"` gives `"0x0x"` and re-checksumming
that gives `"0x"` — the `replace('0x','')` re-forms and then removes an
occurrence. -/
lemma checksum_00xx_any_digest (f : String → String) :
    to_checksum_address f "00xx" = "0x0x" ∧
    to_checksum_address f (to_checksum_address f "00xx") = "0x" :=
  ⟨rfl, rfl⟩

/-- C9 counterexample: address checksumming is not idempotent on every
address string — for the string `"00xx"` the first application yields
`"0x0x"` and the second `"0x"`. -/
theorem checksum_not_idempotent_00xx :
    to_checksum_address keccakHexStandIn "00xx" = "0x0x" ∧
    to_checksum_address keccakHexStandIn (to_checksum_address keccakHexStandIn "00xx") = "0x" ∧
    to_checksum_address keccakHexStandIn (to_checksum_address keccakHexStandIn "00xx") ≠
      to_checksum_address keccakHexStandIn "00xx" := by
  refine ⟨(checksum_00xx_any_digest keccakHexStandIn).1,
    (checksum_00xx_any_digest keccakHexStandIn).2, ?_⟩
  decide

/-- C9 (amended): for every digest function and every address string whose
lower-cased, `0x`-stripped form is a 40-character lower-hex string — in
particular every well-formed address, with or without the `0x` prefix —
checksumming is idempotent: `Checksum(Checksum(a)) = Checksum(a)`. -/
theorem checksum_idempotent_on_valid (keccakHex : String → String) (a : String)
    (h40 : (strip0x (a.toList.map Char.toLower)).length = 40)
    (hhex : ∀ c ∈ strip0x (a.toList.map Char.toLower), isHexLower c = true) :
    to_checksum_address keccakHex (to_checksum_address keccakHex a) =
      to_checksum_address keccakHex a := by
  set s := strip0x (a.toList.map Char.toLower) with hs
  have hall : s.all isHexLower = true := by
    rw [List.all_eq_true]
    exact hhex
  have h1 : to_checksum_address keccakHex a =
      String.mk ('0' :: 'x' :: checksumChars ((keccakHex (String.mk s)).toList) 0 s) := by
    unfold to_checksum_address
    rw [← hs]
    rw [if_pos ⟨h40, hall⟩]
  set cs := checksumChars ((keccakHex (String.mk s)).toList) 0 s with hcs
  have hmap : cs.map Char.toLower = s := checksumChars_toLower _ s 0 hhex
  have hstrip2 : strip0x (((String.mk ('0' :: 'x' :: cs)).toList).map Char.toLower) = s := by
    rw [show (String.mk ('0' :: 'x' :: cs)).toList = '0' :: 'x' :: cs from rfl]
    rw [List.map_cons, List.map_cons]
    rw [show Char.toLower '0' = '0' from rfl, show Char.toLower 'x' = 'x' from rfl, hmap]
    rw [show strip0x ('0' :: 'x' :: s) = strip0x s from rfl]
    exact strip0x_no_x s (fun c hc => (isHexLower_facts c (hhex c hc)).2.2.1)
  rw [h1]
  unfold to_checksum_address
  rw [hstrip2, if_pos ⟨h40, hall⟩]

/-- Witness for C9 (amended): a concrete 42-character `0x` address. -/
theorem checksum_idempotent_witness :
    ((strip0x (("0x00000000000000000000000000000000000000ab").toList.map Char.toLower)).length
        = 40) ∧
    to_checksum_address keccakHexStandIn
        (to_checksum_address keccakHexStandIn "0x00000000000000000000000000000000000000ab") =
      to_checksum_address keccakHexStandIn "0x00000000000000000000000000000000000000ab" :=
  ⟨by decide,
   checksum_idempotent_on_valid keccakHexStandIn "0x00000000000000000000000000000000000000ab"
     (by decide) (by decide)⟩

end A1
